import Mathlib

/-!
Verification of the four-stage marketing-strategy pipeline.

This file gives a shallow embedding of the pipeline implemented in
`src/`: the typed result records (`models/schemas.py`), the graph state
(`graph/state.py` / `main.py`), the four stage agents
(`agents/market_researcher.py`, `agents/trend_analyzer.py`,
`agents/strategy_planner.py`, `agents/content_creator.py`), the linear
workflow (`graph/workflow.py`), the search and scrape adapters
(`tools/web_search.py`, `tools/web_scraper.py`) and the input validator
(`utils/helpers.py`), together with theorems about them.

Python strings are modelled as `List Char`; the model service is an
oracle: each stage receives the response text queued for it.  The JSON
decoding performed by each stage (`json.loads` followed by construction
of the pydantic record) is modelled by an executable JSON parser over an
inductive `Json` type plus a shape validator per record.
-/

set_option maxRecDepth 20000

/-- Text models a Python `str` as a list of characters. -/
abbrev Text := List Char

/-- strToText converts a Lean string literal to the `Text` model. -/
def strToText (s : String) : Text := s.data

/-- isWS models the character class stripped by Python `str.strip()`
(the ASCII whitespace characters). -/
def isWS (c : Char) : Bool :=
  c = ' ' || c = '\t' || c = '\n' || c = '\r' || c = '\x0b' || c = '\x0c'

/-- lstrip models Python `str.lstrip()`: drop leading whitespace. -/
def lstrip : Text → Text
  | [] => []
  | c :: cs => if isWS c then lstrip cs else c :: cs

/-- rstrip models Python `str.rstrip()`: drop trailing whitespace. -/
def rstrip (l : Text) : Text := (lstrip l.reverse).reverse

/-- strip models Python `str.strip()`: drop whitespace on both ends. -/
def strip (l : Text) : Text := rstrip (lstrip l)

/-- pyDropRight models the Python slice `s[:-n]` for `n ≤ len s`. -/
def pyDropRight (n : Nat) (l : Text) : Text := l.take (l.length - n)

/-- fenceMarker is the markdown code fence, three backticks. -/
def fenceMarker : Text := ['`', '`', '`']

/-- fenceJsonMarker is the fence opener with a json language tag. -/
def fenceJsonMarker : Text := ['`', '`', '`', 'j', 's', 'o', 'n']

/-- jsonWord is the four characters of the json language tag. -/
def jsonWord : Text := ['j', 's', 'o', 'n']

/-- extractJson models the response post-processing shared verbatim by
all four agents (for example `market_researcher.py` lines 150-159):
strip the response, drop a leading code fence marker with or without a
json tag, drop a trailing code fence marker, and strip again. -/
def extractJson (resp : Text) : Text :=
  let t1 := strip resp
  let t2 := if fenceJsonMarker.isPrefixOf t1 then t1.drop 7 else t1
  let t3 := if fenceMarker.isPrefixOf t2 then t2.drop 3 else t2
  let t4 := if fenceMarker.isSuffixOf t3 then pyDropRight 3 t3 else t3
  strip t4

/-! JSON values and the model of `json.loads`. -/

/-- Json is the value type produced by the model of `json.loads`.
Numbers keep their source lexeme; no record field of this system is
numeric, so no claim depends on numeric value semantics. -/
inductive Json where
  | null : Json
  | bool : Bool → Json
  | num : Text → Json
  | str : Text → Json
  | arr : List Json → Json
  | obj : List (Text × Json) → Json

/-- isJsonWs tests the whitespace characters of the JSON grammar. -/
def isJsonWs (c : Char) : Bool :=
  c = ' ' || c = '\t' || c = '\n' || c = '\r'

/-- skipWs drops leading JSON whitespace. -/
def skipWs : Text → Text
  | [] => []
  | c :: cs => if isJsonWs c then skipWs cs else c :: cs

/-- hexVal maps a hexadecimal digit to its value. -/
def hexVal (c : Char) : Option Nat :=
  if '0' ≤ c ∧ c ≤ '9' then some (c.toNat - 48)
  else if 'a' ≤ c ∧ c ≤ 'f' then some (c.toNat - 87)
  else if 'A' ≤ c ∧ c ≤ 'F' then some (c.toNat - 55)
  else none

/-- escChar maps a single-character JSON escape to its meaning. -/
def escChar (c : Char) : Option Char :=
  if c = '"' then some '"'
  else if c = '\\' then some '\\'
  else if c = '/' then some '/'
  else if c = 'b' then some '\x08'
  else if c = 'f' then some '\x0c'
  else if c = 'n' then some '\n'
  else if c = 'r' then some '\r'
  else if c = 't' then some '\t'
  else none

/-- parseStringBody reads the body of a JSON string after the opening
quote, returning the decoded text and the rest of the input. -/
def parseStringBody : Nat → Text → Option (Text × Text)
  | 0, _ => none
  | _ + 1, [] => none
  | _ + 1, '"' :: r => some ([], r)
  | fuel + 1, '\\' :: r =>
    match r with
    | 'u' :: h1 :: h2 :: h3 :: h4 :: r2 => do
      let a ← hexVal h1
      let b ← hexVal h2
      let c ← hexVal h3
      let d ← hexVal h4
      let (t, rest) ← parseStringBody fuel r2
      pure (Char.ofNat (((a * 16 + b) * 16 + c) * 16 + d) :: t, rest)
    | e :: r2 => do
      let c ← escChar e
      let (t, rest) ← parseStringBody fuel r2
      pure (c :: t, rest)
    | [] => none
  | fuel + 1, c :: r => do
    let (t, rest) ← parseStringBody fuel r
    pure (c :: t, rest)

/-- parseNumber reads a JSON number, keeping its lexeme. -/
def parseNumber (s : Text) : Option (Json × Text) :=
  let (sign, s1) := match s with
    | '-' :: r => (['-'], r)
    | _ => (([] : Text), s)
  let intPart := s1.takeWhile Char.isDigit
  let s2 := s1.dropWhile Char.isDigit
  if intPart.isEmpty then none
  else
    let (fracPart, s3) := match s2 with
      | '.' :: r =>
        (('.' :: r.takeWhile Char.isDigit), r.dropWhile Char.isDigit)
      | _ => (([] : Text), s2)
    if fracPart = ['.'] then none
    else
      let (expPart, s4) := match s3 with
        | 'e' :: '+' :: r =>
          (('e' :: '+' :: r.takeWhile Char.isDigit), r.dropWhile Char.isDigit)
        | 'e' :: '-' :: r =>
          (('e' :: '-' :: r.takeWhile Char.isDigit), r.dropWhile Char.isDigit)
        | 'e' :: r =>
          (('e' :: r.takeWhile Char.isDigit), r.dropWhile Char.isDigit)
        | 'E' :: '+' :: r =>
          (('E' :: '+' :: r.takeWhile Char.isDigit), r.dropWhile Char.isDigit)
        | 'E' :: '-' :: r =>
          (('E' :: '-' :: r.takeWhile Char.isDigit), r.dropWhile Char.isDigit)
        | 'E' :: r =>
          (('E' :: r.takeWhile Char.isDigit), r.dropWhile Char.isDigit)
        | _ => (([] : Text), s3)
      if expPart.getLast? = some 'e' ∨ expPart.getLast? = some 'E' ∨
         expPart.getLast? = some '+' ∨ expPart.getLast? = some '-' then none
      else some (Json.num (sign ++ intPart ++ fracPart ++ expPart), s4)

mutual

/-- parseVal reads one JSON value (fuelled recursive descent). -/
def parseVal : Nat → Text → Option (Json × Text)
  | 0, _ => none
  | fuel + 1, s =>
    match skipWs s with
    | 'n' :: 'u' :: 'l' :: 'l' :: r => some (Json.null, r)
    | 't' :: 'r' :: 'u' :: 'e' :: r => some (Json.bool true, r)
    | 'f' :: 'a' :: 'l' :: 's' :: 'e' :: r => some (Json.bool false, r)
    | '"' :: r => do
      let (t, rest) ← parseStringBody (r.length + 1) r
      pure (Json.str t, rest)
    | '[' :: r =>
      (match skipWs r with
       | ']' :: r2 => some (Json.arr [], r2)
       | _ => do
         let (xs, rest) ← parseElems fuel r
         pure (Json.arr xs, rest))
    | '\x7b' :: r =>
      (match skipWs r with
       | '\x7d' :: r2 => some (Json.obj [], r2)
       | _ => do
         let (kvs, rest) ← parseMembers fuel r
         pure (Json.obj kvs, rest))
    | c :: r => if c = '-' || c.isDigit then parseNumber (c :: r) else none
    | [] => none

/-- parseElems reads the elements of a non-empty JSON array. -/
def parseElems : Nat → Text → Option (List Json × Text)
  | 0, _ => none
  | fuel + 1, s => do
    let (v, rest) ← parseVal fuel s
    match skipWs rest with
    | ',' :: r2 => do
      let (vs, rest2) ← parseElems fuel r2
      pure (v :: vs, rest2)
    | ']' :: r2 => pure ([v], r2)
    | _ => none

/-- parseMembers reads the members of a non-empty JSON object. -/
def parseMembers : Nat → Text → Option (List (Text × Json) × Text)
  | 0, _ => none
  | fuel + 1, s =>
    match skipWs s with
    | '"' :: r => do
      let (k, rest) ← parseStringBody (r.length + 1) r
      match skipWs rest with
      | ':' :: r2 => do
        let (v, rest2) ← parseVal fuel r2
        match skipWs rest2 with
        | ',' :: r3 => do
          let (kvs, rest3) ← parseMembers fuel r3
          pure ((k, v) :: kvs, rest3)
        | '\x7d' :: r3 => pure ([(k, v)], r3)
        | _ => none
      | _ => none
    | _ => none

end

/-- jsonLoads models `json.loads`: parse one value and require that
only whitespace remains. -/
def jsonLoads (s : Text) : Option Json :=
  match parseVal (s.length + 8) s with
  | some (v, rest) => if skipWs rest = [] then some v else none
  | none => none

/-! Typed result records, from `models/schemas.py`.  Python
`Dict[str, str]` is modelled as an association list. -/

/-- MarketResearch mirrors the pydantic model of the same name. -/
structure MarketResearch where
  customer_profile : List (Text × Text)
  competitors : List (List (Text × Text))
  target_audience : List (Text × Text)
  market_positioning : Text
deriving DecidableEq

/-- TrendAnalysis mirrors the pydantic model of the same name. -/
structure TrendAnalysis where
  market_trends : List Text
  tech_trends : List Text
  consumer_trends : List Text
  trend_impact : Text
  opportunities : List Text
deriving DecidableEq

/-- MarketingStrategy mirrors the pydantic model of the same name. -/
structure MarketingStrategy where
  name : Text
  goals : List Text
  tactics : List Text
  channels : List Text
  KPIs : List Text
deriving DecidableEq

/-- CampaignIdea mirrors the pydantic model of the same name. -/
structure CampaignIdea where
  name : Text
  description : Text
  audience : Text
  channel : Text
deriving DecidableEq

/-- Copy mirrors the pydantic model of the same name. -/
structure Copy where
  title : Text
  body : Text
deriving DecidableEq

/-- CampaignContent mirrors the pydantic model of the same name. -/
structure CampaignContent where
  campaign_ideas : List CampaignIdea
  copies : List Copy
deriving DecidableEq

/-! Shape validation: constructing a record from a parsed JSON object,
modelling `Record(**result_dict)`.  A missing required key or a value
of the wrong shape fails, as pydantic validation does. -/

/-- lookupKey reads a key from a parsed JSON object.  `json.loads`
keeps the last occurrence of a duplicated key, hence the reverse. -/
def lookupKey (fs : List (Text × Json)) (k : String) : Option Json :=
  fs.reverse.lookup (strToText k)

/-- asText requires a JSON string. -/
def asText : Json → Option Text
  | Json.str s => some s
  | _ => none

/-- asTextList requires a JSON array of strings. -/
def asTextList : Json → Option (List Text)
  | Json.arr xs => xs.mapM asText
  | _ => none

/-- asStrDict requires a JSON object whose values are all strings. -/
def asStrDict : Json → Option (List (Text × Text))
  | Json.obj fs => fs.mapM (fun kv => (asText kv.snd).map (fun t => (kv.fst, t)))
  | _ => none

/-- asStrDictList requires a JSON array of string-valued objects. -/
def asStrDictList : Json → Option (List (List (Text × Text)))
  | Json.arr xs => xs.mapM asStrDict
  | _ => none

/-- asCampaignIdea validates one campaign idea object. -/
def asCampaignIdea : Json → Option CampaignIdea
  | Json.obj fs => do
    let n ← lookupKey fs "name" >>= asText
    let d ← lookupKey fs "description" >>= asText
    let a ← lookupKey fs "audience" >>= asText
    let c ← lookupKey fs "channel" >>= asText
    pure ⟨n, d, a, c⟩
  | _ => none

/-- asCopy validates one marketing copy object. -/
def asCopy : Json → Option Copy
  | Json.obj fs => do
    let t ← lookupKey fs "title" >>= asText
    let b ← lookupKey fs "body" >>= asText
    pure ⟨t, b⟩
  | _ => none

/-- parseStageJson is the shared fence stripping plus `json.loads`. -/
def parseStageJson (resp : Text) : Option Json :=
  jsonLoads (extractJson resp)

/-- decodeMarketResearch models the parse-and-validate step of
`MarketResearcherAgent.analyze`: `json.loads` on the fence-stripped
response, then `MarketResearch(**result_dict)`. -/
def decodeMarketResearch (resp : Text) : Option MarketResearch :=
  match parseStageJson resp with
  | some (Json.obj fs) => do
    let cp ← lookupKey fs "customer_profile" >>= asStrDict
    let comps ← lookupKey fs "competitors" >>= asStrDictList
    let ta ← lookupKey fs "target_audience" >>= asStrDict
    let mp ← lookupKey fs "market_positioning" >>= asText
    pure ⟨cp, comps, ta, mp⟩
  | _ => none

/-- decodeTrendAnalysis models the parse-and-validate step of
`TrendAnalyzerAgent.analyze`. -/
def decodeTrendAnalysis (resp : Text) : Option TrendAnalysis :=
  match parseStageJson resp with
  | some (Json.obj fs) => do
    let mt ← lookupKey fs "market_trends" >>= asTextList
    let tt ← lookupKey fs "tech_trends" >>= asTextList
    let ct ← lookupKey fs "consumer_trends" >>= asTextList
    let ti ← lookupKey fs "trend_impact" >>= asText
    let op ← lookupKey fs "opportunities" >>= asTextList
    pure ⟨mt, tt, ct, ti, op⟩
  | _ => none

/-- decodeMarketingStrategy models the parse-and-validate step of
`StrategyPlannerAgent.plan`. -/
def decodeMarketingStrategy (resp : Text) : Option MarketingStrategy :=
  match parseStageJson resp with
  | some (Json.obj fs) => do
    let n ← lookupKey fs "name" >>= asText
    let g ← lookupKey fs "goals" >>= asTextList
    let t ← lookupKey fs "tactics" >>= asTextList
    let c ← lookupKey fs "channels" >>= asTextList
    let k ← lookupKey fs "KPIs" >>= asTextList
    pure ⟨n, g, t, c, k⟩
  | _ => none

/-- decodeCampaignContent models the parse-and-validate step of
`ContentCreatorAgent.create`: `result_dict["campaign_ideas"]` and
`result_dict["copies"]` are validated element by element. -/
def decodeCampaignContent (resp : Text) : Option CampaignContent :=
  match parseStageJson resp with
  | some (Json.obj fs) => do
    let ideasJson ← lookupKey fs "campaign_ideas"
    let copiesJson ← lookupKey fs "copies"
    let ideas ← match ideasJson with
      | Json.arr xs => xs.mapM asCampaignIdea
      | _ => none
    let copies ← match copiesJson with
      | Json.arr xs => xs.mapM asCopy
      | _ => none
    pure ⟨ideas, copies⟩
  | _ => none

/-! Graph state, from `graph/state.py` and the initial state built in
`main.py` `run_analysis`. -/

/-- GraphState is the pipeline state threaded through all stages. -/
structure GraphState where
  company_domain : Text
  industry : Text
  project_description : Text
  target_market : Option Text
  market_research : Option MarketResearch
  trend_analysis : Option TrendAnalysis
  marketing_strategy : Option MarketingStrategy
  campaign_content : Option CampaignContent
  current_step : Text
  error : Option Text
deriving DecidableEq

/-- initialState is the state literal built at the top of
`run_analysis` in `main.py`. -/
def initialState (company_domain industry project_description : Text)
    (target_market : Option Text) : GraphState :=
  { company_domain := company_domain
    industry := industry
    project_description := project_description
    target_market := target_market
    market_research := none
    trend_analysis := none
    marketing_strategy := none
    campaign_content := none
    current_step := strToText "initialized"
    error := none }

/-! Search and scrape adapters, from `tools/web_search.py` and
`tools/web_scraper.py`. -/

/-- SearchResult is one (title, snippet, link) record. -/
structure SearchResult where
  title : Text
  snippet : Text
  link : Text
deriving DecidableEq

/-- pyListMul models Python list repetition `l * n`. -/
def pyListMul (l : List SearchResult) (n : Nat) : List SearchResult :=
  (List.replicate n l).flatten

/-- simulatedResult is the single canned record built by
`WebSearchTool._simulated_search` for a query. -/
def simulatedResult (query : Text) : SearchResult :=
  { title := strToText "Search result for: " ++ query
    snippet := strToText "This is a simulated search result. In production, this would return real data from search engines."
    link := strToText "https://example.com/search?q=" ++
      query.map (fun c => if c = ' ' then '+' else c) }

/-- WebSearchTool.simulated_search models `_simulated_search`: the
one-element canned list repeated `min num_results 3` times. -/
def WebSearchTool.simulated_search (query : Text) (num_results : Nat) :
    List SearchResult :=
  pyListMul [simulatedResult query] (min num_results 3)

/-- WebSearchTool.search models `search`: with no configured Serper
credential the simulated search is used; with a credential the network
reply (`organic[:num_results]`, an oracle here) is used, falling back
to the simulated search when the request fails. -/
def WebSearchTool.search (serper_api_key : Option Text)
    (net : Option (List SearchResult)) (query : Text) (num_results : Nat) :
    List SearchResult :=
  match serper_api_key with
  | none => WebSearchTool.simulated_search query num_results
  | some _ =>
    match net with
    | some organic => organic.take num_results
    | none => WebSearchTool.simulated_search query num_results

/-- splitTwoSpaces models Python `line.split("  ")`. -/
def splitTwoSpaces : Text → List Text
  | [] => [[]]
  | ' ' :: ' ' :: r => [] :: splitTwoSpaces r
  | c :: r =>
    match splitTwoSpaces r with
    | [] => [[c]]
    | p :: ps => (c :: p) :: ps

/-- splitLinesAux splits on newline characters, accumulating the
current line (Python `str.splitlines` restricted to `\n`). -/
def splitLinesAux : Text → Text → List Text
  | acc, [] => [acc.reverse]
  | acc, '\n' :: r => acc.reverse :: splitLinesAux [] r
  | acc, c :: r => splitLinesAux (c :: acc) r

/-- pySplitlines models `str.splitlines` (newline separated; a
trailing newline produces no empty final line). -/
def pySplitlines (t : Text) : List Text :=
  match splitLinesAux [] t with
  | ls =>
    match ls.getLast? with
    | some [] => ls.dropLast
    | _ => ls

/-- cleanScrapedText models the whitespace clean-up in
`WebScraperTool.scrape`: split into lines, strip each, split each line
on double spaces, strip the phrases, and join the non-empty chunks
with newlines. -/
def cleanScrapedText (t : Text) : Text :=
  let lines := (pySplitlines t).map strip
  let chunks := (lines.map (fun line => (splitTwoSpaces line).map strip)).flatten
  List.intercalate (strToText "\n") (chunks.filter (fun c => ¬ c.isEmpty))

/-- WebScraperTool.scrape models `scrape`: the fetched page text is an
oracle (`none` models any fetch or parse failure, which the
`try/except` turns into a `None` return); on success the cleaned text
is truncated to `max_length` plus a "..." suffix. -/
def WebScraperTool.scrape (fetched : Option Text) (max_length : Nat) :
    Option Text :=
  match fetched with
  | none => none
  | some raw =>
    let text := cleanScrapedText raw
    some (if max_length < text.length
          then text.take max_length ++ strToText "..."
          else text)

/-! The four stage agents.  Each agent's `analyze`/`plan`/`create`
method takes the queued model response for its stage together with the
current state; the prompt-context builders are modelled separately. -/

/-- dictGet models Python `d.get(key, default)` on a string dict. -/
def dictGet (m : List (Text × Text)) (k : String) (dflt : String) : Text :=
  match m.lookup (strToText k) with
  | some v => v
  | none => strToText dflt

/-- orPlaceholder models the Python expression `text or placeholder`:
`None` and the empty string both fall back to the placeholder. -/
def orPlaceholder (c : Option Text) (dflt : String) : Text :=
  match c with
  | none => strToText dflt
  | some t => if t.isEmpty then strToText dflt else t

/-- joinNl models `'\n'.join(items)`. -/
def joinNl (items : List Text) : Text :=
  List.intercalate (strToText "\n") items

/-- formatDashList models the `_format_list` helper shared by the
strategy planner and the content creator. -/
def formatDashList (items : List Text) : Text :=
  joinNl (items.map (fun it => strToText "- " ++ it))

/-- MarketResearcherAgent.format_search_results models
`_format_search_results`. -/
def MarketResearcherAgent.format_search_results
    (competitor_results audience_results : List SearchResult) : Text :=
  let fmt := fun (acc : Text × Nat) (r : SearchResult) =>
    (acc.fst ++ strToText "\n" ++ strToText (toString acc.snd) ++
       strToText ". " ++ r.title ++ strToText "\n   " ++ r.snippet ++
       strToText "\n",
     acc.snd + 1)
  let part1 := ((competitor_results.take 3).foldl fmt
    (strToText "=== Competitor Information ===\n", 1)).fst
  let part2 := ((audience_results.take 3).foldl fmt
    (part1 ++ strToText "\n=== Target Audience Information ===\n", 1)).fst
  part2

/-- MarketResearcherAgent.promptContext models the variable map passed
to `chain.invoke` in `MarketResearcherAgent.analyze`; the company
content is the scrape result, `None` degrading to a placeholder. -/
def MarketResearcherAgent.promptContext (s : GraphState)
    (search_results : Text) (company_content : Option Text) :
    List (Text × Text) :=
  [(strToText "company_domain", s.company_domain),
   (strToText "industry", s.industry),
   (strToText "project_description", s.project_description),
   (strToText "target_market",
     (s.target_market.getD (strToText "Not specified"))),
   (strToText "search_results", search_results),
   (strToText "company_content", orPlaceholder company_content "No content available")]

/-- MarketResearcherAgent.analyze models the state transition of the
market research stage: decode the model response; on success attach
the record and advance `current_step`, on any failure set `error` and
mark the step failed.  The dynamic Python exception text is modelled
by a fixed description. -/
def MarketResearcherAgent.analyze (resp : Text) (s : GraphState) : GraphState :=
  match decodeMarketResearch resp with
  | some mr =>
    { s with market_research := some mr
             current_step := strToText "market_research_completed" }
  | none =>
    { s with error := some (strToText "Market research failed: invalid model response")
             current_step := strToText "market_research_failed" }

/-- TrendAnalyzerAgent.format_market_research models
`_format_market_research` of the trend analyzer. -/
def TrendAnalyzerAgent.format_market_research :
    Option MarketResearch → Text
  | none => strToText "No market research available"
  | some mr =>
    strToText "\nCustomer: " ++ dictGet mr.customer_profile "company_name" "N/A" ++
    strToText "\nIndustry: " ++ dictGet mr.customer_profile "industry" "N/A" ++
    strToText "\nMarket Position: " ++ dictGet mr.customer_profile "market_position" "N/A" ++
    strToText "\n\nTarget Audience:\n- Demographics: " ++ dictGet mr.target_audience "demographics" "N/A" ++
    strToText "\n- Preferences: " ++ dictGet mr.target_audience "preferences" "N/A" ++
    strToText "\n- Pain Points: " ++ dictGet mr.target_audience "pain_points" "N/A" ++
    strToText "\n\nTop Competitors:\n" ++
    (mr.competitors.take 3).foldl
      (fun acc comp =>
        acc ++ strToText "- " ++ dictGet comp "name" "N/A" ++ strToText ": " ++
        dictGet comp "differentiation" "N/A" ++ strToText "\n")
      (strToText "")

/-- TrendAnalyzerAgent.format_trend_results models
`_format_trend_results`. -/
def TrendAnalyzerAgent.format_trend_results
    (trend_results : List SearchResult) : Text :=
  (((trend_results.take 5).foldl
    (fun (acc : Text × Nat) r =>
      (acc.fst ++ strToText "\n" ++ strToText (toString acc.snd) ++
         strToText ". " ++ r.title ++ strToText "\n   " ++ r.snippet ++
         strToText "\n",
       acc.snd + 1))
    (strToText "", 1))).fst

/-- TrendAnalyzerAgent.promptContext models the variable map passed to
`chain.invoke` in `TrendAnalyzerAgent.analyze`. -/
def TrendAnalyzerAgent.promptContext (s : GraphState)
    (trend_results : List SearchResult) : List (Text × Text) :=
  [(strToText "industry", s.industry),
   (strToText "company_domain", s.company_domain),
   (strToText "market_research",
     TrendAnalyzerAgent.format_market_research s.market_research),
   (strToText "trend_results",
     TrendAnalyzerAgent.format_trend_results trend_results)]

/-- TrendAnalyzerAgent.analyze models the state transition of the
trend analysis stage. -/
def TrendAnalyzerAgent.analyze (resp : Text) (s : GraphState) : GraphState :=
  match decodeTrendAnalysis resp with
  | some ta =>
    { s with trend_analysis := some ta
             current_step := strToText "trend_analysis_completed" }
  | none =>
    { s with error := some (strToText "Trend analysis failed: invalid model response")
             current_step := strToText "trend_analysis_failed" }

/-- StrategyPlannerAgent.format_market_research models
`_format_market_research` of the strategy planner. -/
def StrategyPlannerAgent.format_market_research :
    Option MarketResearch → Text
  | none => strToText "No market research available"
  | some mr =>
    strToText "\nCustomer Profile:\n- Company: " ++ dictGet mr.customer_profile "company_name" "N/A" ++
    strToText "\n- Products/Services: " ++ dictGet mr.customer_profile "products_services" "N/A" ++
    strToText "\n- Market Position: " ++ dictGet mr.customer_profile "market_position" "N/A" ++
    strToText "\n\nTarget Audience:\n- Demographics: " ++ dictGet mr.target_audience "demographics" "N/A" ++
    strToText "\n- Preferences: " ++ dictGet mr.target_audience "preferences" "N/A" ++
    strToText "\n- Pain Points: " ++ dictGet mr.target_audience "pain_points" "N/A" ++
    strToText "\n\nMarket Positioning: " ++ mr.market_positioning ++
    strToText "\n\nKey Competitors: " ++
    List.intercalate (strToText ", ")
      ((mr.competitors.take 3).map (fun c => dictGet c "name" "N/A")) ++
    strToText "\n"

/-- StrategyPlannerAgent.format_trend_analysis models
`_format_trend_analysis`. -/
def StrategyPlannerAgent.format_trend_analysis :
    Option TrendAnalysis → Text
  | none => strToText "No trend analysis available"
  | some ta =>
    strToText "\nMarket Trends:\n" ++ formatDashList ta.market_trends ++
    strToText "\n\nTechnology Trends:\n" ++ formatDashList ta.tech_trends ++
    strToText "\n\nConsumer Trends:\n" ++ formatDashList ta.consumer_trends ++
    strToText "\n\nTrend Impact: " ++ ta.trend_impact ++
    strToText "\n\nIdentified Opportunities:\n" ++ formatDashList ta.opportunities ++
    strToText "\n"

/-- StrategyPlannerAgent.promptContext models the variable map passed
to `chain.invoke` in `StrategyPlannerAgent.plan`. -/
def StrategyPlannerAgent.promptContext (s : GraphState) : List (Text × Text) :=
  [(strToText "project_description", s.project_description),
   (strToText "target_market", (s.target_market.getD (strToText "Not specified"))),
   (strToText "market_research",
     StrategyPlannerAgent.format_market_research s.market_research),
   (strToText "trend_analysis",
     StrategyPlannerAgent.format_trend_analysis s.trend_analysis)]

/-- StrategyPlannerAgent.plan models the state transition of the
strategy planning stage. -/
def StrategyPlannerAgent.plan (resp : Text) (s : GraphState) : GraphState :=
  match decodeMarketingStrategy resp with
  | some ms =>
    { s with marketing_strategy := some ms
             current_step := strToText "strategy_planning_completed" }
  | none =>
    { s with error := some (strToText "Strategy planning failed: invalid model response")
             current_step := strToText "strategy_planning_failed" }

/-- ContentCreatorAgent.format_strategy models `_format_strategy`. -/
def ContentCreatorAgent.format_strategy : Option MarketingStrategy → Text
  | none => strToText "No marketing strategy available"
  | some ms =>
    strToText "\nStrategy Name: " ++ ms.name ++
    strToText "\n\nGoals:\n" ++ formatDashList ms.goals ++
    strToText "\n\nTactics:\n" ++ formatDashList ms.tactics ++
    strToText "\n\nChannels:\n" ++ formatDashList ms.channels ++
    strToText "\n\nKPIs:\n" ++ formatDashList ms.KPIs ++
    strToText "\n"

/-- ContentCreatorAgent.format_audience models `_format_audience`. -/
def ContentCreatorAgent.format_audience : Option MarketResearch → Text
  | none => strToText "No audience information available"
  | some mr =>
    strToText "\nDemographics: " ++ dictGet mr.target_audience "demographics" "N/A" ++
    strToText "\nPreferences: " ++ dictGet mr.target_audience "preferences" "N/A" ++
    strToText "\nPain Points: " ++ dictGet mr.target_audience "pain_points" "N/A" ++
    strToText "\nBehavior: " ++ dictGet mr.target_audience "behavior" "N/A" ++
    strToText "\n"

/-- ContentCreatorAgent.promptContext models the variable map passed
to `chain.invoke` in `ContentCreatorAgent.create`. -/
def ContentCreatorAgent.promptContext (s : GraphState) : List (Text × Text) :=
  [(strToText "project_description", s.project_description),
   (strToText "marketing_strategy",
     ContentCreatorAgent.format_strategy s.marketing_strategy),
   (strToText "target_audience",
     ContentCreatorAgent.format_audience s.market_research)]

/-- ContentCreatorAgent.create models the state transition of the
content creation stage. -/
def ContentCreatorAgent.create (resp : Text) (s : GraphState) : GraphState :=
  match decodeCampaignContent resp with
  | some cc =>
    { s with campaign_content := some cc
             current_step := strToText "content_creation_completed" }
  | none =>
    { s with error := some (strToText "Content creation failed: invalid model response")
             current_step := strToText "content_creation_failed" }

/-! The workflow graph, from `graph/workflow.py`.  The LangGraph
`StateGraph` library is modelled by an explicit node/edge table and an
executor that starts at the entry point, runs each node's function and
follows the single outgoing edge until the END sentinel. -/

/-- StageResponses queues one model response per stage for a run. -/
structure StageResponses where
  market_research_response : Text
  trend_analysis_response : Text
  strategy_planning_response : Text
  content_creation_response : Text

/-- endLabel is the END sentinel of the graph library. -/
def endLabel : Text := strToText "__end__"

/-- workflowNodes is the node table added in `create_workflow`: each
node function delegates to the corresponding agent method. -/
def workflowNodes (rs : StageResponses) :
    List (Text × (GraphState → GraphState)) :=
  [(strToText "market_research",
     MarketResearcherAgent.analyze rs.market_research_response),
   (strToText "trend_analysis",
     TrendAnalyzerAgent.analyze rs.trend_analysis_response),
   (strToText "strategy_planning",
     StrategyPlannerAgent.plan rs.strategy_planning_response),
   (strToText "content_creation",
     ContentCreatorAgent.create rs.content_creation_response)]

/-- workflowEdges is the edge table added in `create_workflow`. -/
def workflowEdges : List (Text × Text) :=
  [(strToText "market_research", strToText "trend_analysis"),
   (strToText "trend_analysis", strToText "strategy_planning"),
   (strToText "strategy_planning", strToText "content_creation"),
   (strToText "content_creation", endLabel)]

/-- workflowEntry is the entry point set in `create_workflow`. -/
def workflowEntry : Text := strToText "market_research"

/-- invokeFrom executes the graph from a node: run the node's
function, record its name in the trace, and follow the outgoing edge.
Execution stops at a name with no node (the END sentinel). -/
def invokeFrom : Nat → List (Text × (GraphState → GraphState)) →
    List (Text × Text) → Text → GraphState → GraphState × List Text
  | 0, _, _, _, s => (s, [])
  | fuel + 1, nodes, edges, cur, s =>
    match nodes.lookup cur with
    | none => (s, [])
    | some f =>
      let s' := f s
      match edges.lookup cur with
      | none => (s', [cur])
      | some nxt =>
        let (s'', tr) := invokeFrom fuel nodes edges nxt s'
        (s'', cur :: tr)

/-- workflow_invoke models `marketing_workflow.invoke(state)`: run the
compiled graph of `create_workflow` on a state, also returning the
trace of executed node names. -/
def workflow_invoke (rs : StageResponses) (s : GraphState) :
    GraphState × List Text :=
  invokeFrom (workflowEdges.length + 1) (workflowNodes rs) workflowEdges
    workflowEntry s

/-- sequentialPipeline is the specification-side orchestrator of
spec section 4.2: the unconditional sequential composition of the four
stage functions in pipeline order, with no branching. -/
def sequentialPipeline (rs : StageResponses) (s : GraphState) : GraphState :=
  ContentCreatorAgent.create rs.content_creation_response
    (StrategyPlannerAgent.plan rs.strategy_planning_response
      (TrendAnalyzerAgent.analyze rs.trend_analysis_response
        (MarketResearcherAgent.analyze rs.market_research_response s)))

/-- stageOrder is the documented linear stage order. -/
def stageOrder : List Text :=
  [strToText "market_research", strToText "trend_analysis",
   strToText "strategy_planning", strToText "content_creation"]

/-! Input validation and the presentation-layer gate, from
`utils/helpers.py` and `main.py`. -/

/-- validate_input models `validate_input` in `utils/helpers.py`. -/
def validate_input (company_domain industry project_description : Text) :
    Bool × Text :=
  if company_domain.isEmpty || (strip company_domain).isEmpty then
    (false, strToText "Company domain is required / 公司域名为必填项")
  else if industry.isEmpty || (strip industry).isEmpty then
    (false, strToText "Industry is required / 行业为必填项")
  else if project_description.isEmpty || (strip project_description).isEmpty then
    (false, strToText "Project description is required / 项目描述为必填项")
  else if project_description.length < 50 then
    (false, strToText "Project description should be at least 50 characters / 项目描述至少需要 50 个字符")
  else (true, [])

/-- mainRun models the analysis gate in `main.py` `main` (lines
400-408): validate the form input first; only when validation passes
is the workflow invoked on the initial state, so an invalid input runs
no stage. -/
def mainRun (company_domain industry project_description : Text)
    (target_market : Option Text) (rs : StageResponses) : Option GraphState :=
  let v := validate_input company_domain industry project_description
  if v.fst then
    some (workflow_invoke rs
      (initialState company_domain industry project_description target_market)).fst
  else none

/-! Concrete response texts used by the closed theorems below. -/

/-- goodMarketResearchJson is a well-formed market research reply. -/
def goodMarketResearchJson : Text :=
  strToText "\x7b\"customer_profile\":\x7b\"company_name\":\"A\"\x7d,\"competitors\":[],\"target_audience\":\x7b\x7d,\"market_positioning\":\"F\"\x7d"

/-- goodTrendAnalysisJson is a well-formed trend analysis reply. -/
def goodTrendAnalysisJson : Text :=
  strToText "\x7b\"market_trends\":[\"t1\"],\"tech_trends\":[],\"consumer_trends\":[],\"trend_impact\":\"X\",\"opportunities\":[]\x7d"

/-- goodStrategyJson is a well-formed marketing strategy reply. -/
def goodStrategyJson : Text :=
  strToText "\x7b\"name\":\"S\",\"goals\":[\"g\"],\"tactics\":[],\"channels\":[],\"KPIs\":[]\x7d"

/-- goodContentJson is a well-formed campaign content reply. -/
def goodContentJson : Text :=
  strToText "\x7b\"campaign_ideas\":[\x7b\"name\":\"c\",\"description\":\"d\",\"audience\":\"a\",\"channel\":\"ch\"\x7d],\"copies\":[\x7b\"title\":\"t\",\"body\":\"b\"\x7d]\x7d"

/-- badResponse is a reply that is not valid JSON. -/
def badResponse : Text := strToText "I am sorry, I cannot produce JSON."

/-- presetMarketResearch is a concrete market research record. -/
def presetMarketResearch : MarketResearch :=
  { customer_profile := []
    competitors := []
    target_audience := []
    market_positioning := strToText "leader" }

/-- presetState is a state whose market research field is already
populated before the market research stage runs. -/
def presetState : GraphState :=
  { initialState (strToText "acme.com") (strToText "tech")
      (strToText "description") none with
    market_research := some presetMarketResearch }

/-- fencedTrendResponse is a trend analysis reply that arrives already
wrapped in a json-tagged code fence. -/
def fencedTrendResponse : Text :=
  fenceJsonMarker ++ goodTrendAnalysisJson ++ fenceMarker

/-- doubleFencedTrendResponse wraps the already fenced reply in one
more json-tagged code fence. -/
def doubleFencedTrendResponse : Text :=
  fenceJsonMarker ++ fencedTrendResponse ++ fenceMarker

/-- longDescription is a 60-character project description. -/
def longDescription : Text := List.replicate 60 'x'

/-- failedStageState holds when a stage has reported failure: a
non-empty error message is attached and the step label ends in
the suffix _failed. -/
def failedStageState (s' : GraphState) : Prop :=
  (∃ m, s'.error = some m ∧ 0 < m.length) ∧
  (strToText "_failed").isSuffixOf s'.current_step = true

/-! Properties of the Python-style stripping functions. -/

/-- A non-whitespace head survives lstrip. -/
theorem lstrip_cons_not_ws (c : Char) (l : Text) (h : isWS c = false) :
    lstrip (c :: l) = c :: l := by
  simp [lstrip, h]

/-- lstrip distributes over append, depending on whether the left part
is all whitespace. -/
theorem lstrip_append (a b : Text) :
    lstrip (a ++ b) = if lstrip a = [] then lstrip b else lstrip a ++ b := by
  induction a with
  | nil => simp [lstrip]
  | cons c cs ih =>
    by_cases h : isWS c
    · simpa [lstrip, h] using ih
    · simp [lstrip, h]

/-- lstrip erases a list exactly when it is all whitespace. -/
theorem lstrip_eq_nil (a : Text) :
    lstrip a = [] ↔ ∀ c ∈ a, isWS c = true := by
  induction a with
  | nil => simp [lstrip]
  | cons c cs ih =>
    by_cases h : isWS c <;> simp [lstrip, h, ih]

/-- rstrip distributes over append, depending on whether the right
part is all whitespace. -/
theorem rstrip_append (a b : Text) :
    rstrip (a ++ b) = if rstrip b = [] then rstrip a else a ++ rstrip b := by
  unfold rstrip
  rw [List.reverse_append, lstrip_append]
  by_cases h : lstrip b.reverse = []
  · simp [h]
  · simp [h, List.reverse_append]

/-- A non-whitespace last character survives rstrip. -/
theorem rstrip_snoc_not_ws (l : Text) (c : Char) (h : isWS c = false) :
    rstrip (l ++ [c]) = l ++ [c] := by
  unfold rstrip
  rw [List.reverse_append]
  simp only [List.reverse_cons, List.reverse_nil, List.nil_append,
    List.singleton_append]
  rw [lstrip_cons_not_ws _ _ h]
  simp

/-- rstrip keeps a list with no whitespace at all. -/
theorem rstrip_of_all_not_ws (l : Text) (h : ∀ c ∈ l, isWS c = false) :
    rstrip l = l := by
  rcases List.eq_nil_or_concat l with rfl | ⟨l', d, rfl⟩
  · rfl
  · simp only [List.concat_eq_append]
    exact rstrip_snoc_not_ws l' d (h d (by simp))

/-- A list delimited by non-whitespace characters is left intact by
strip. -/
theorem strip_sandwich (c d : Char) (l : Text) (hc : isWS c = false)
    (hd : isWS d = false) : strip (c :: (l ++ [d])) = c :: (l ++ [d]) := by
  unfold strip
  rw [lstrip_cons_not_ws _ _ hc,
    show c :: (l ++ [d]) = (c :: l) ++ [d] from rfl,
    rstrip_snoc_not_ws _ _ hd]

/-- lstrip is idempotent. -/
theorem lstrip_idem (l : Text) : lstrip (lstrip l) = lstrip l := by
  induction l with
  | nil => rfl
  | cons c cs ih =>
    by_cases h : isWS c
    · simpa [lstrip, h] using ih
    · simp [lstrip, h]

/-- rstrip is idempotent. -/
theorem rstrip_idem (l : Text) : rstrip (rstrip l) = rstrip l := by
  simp [rstrip, List.reverse_reverse, lstrip_idem]

/-- The head produced by lstrip is never whitespace. -/
theorem lstrip_head_not_ws (l : Text) (c : Char) (m : Text)
    (h : lstrip l = c :: m) : isWS c = false := by
  induction l with
  | nil => simp [lstrip] at h
  | cons d ds ih =>
    by_cases hd : isWS d
    · rw [lstrip, if_pos hd] at h
      exact ih h
    · rw [lstrip, if_neg hd] at h
      cases h
      simpa using hd

/-- strip is idempotent. -/
theorem strip_idem (l : Text) : strip (strip l) = strip l := by
  have key : lstrip (rstrip (lstrip l)) = rstrip (lstrip l) := by
    cases hm : lstrip l with
    | nil => rfl
    | cons c m' =>
      have hc : isWS c = false := lstrip_head_not_ws l c m' hm
      rw [show c :: m' = [c] ++ m' from rfl, rstrip_append]
      by_cases h2 : rstrip m' = []
      · rw [if_pos h2]
        have h1 : rstrip [c] = [c] := by
          simpa using rstrip_snoc_not_ws [] c hc
        rw [h1, lstrip_cons_not_ws _ _ hc]
      · rw [if_neg h2, List.singleton_append, lstrip_cons_not_ws _ _ hc]
  show rstrip (lstrip (rstrip (lstrip l))) = rstrip (lstrip l)
  rw [key, rstrip_idem]

/-! Properties of boolean prefix and suffix tests on lists. -/

/-- A list is a prefix of itself followed by anything. -/
theorem isPrefixOf_append_self (p r : Text) : p.isPrefixOf (p ++ r) = true := by
  induction p with
  | nil => simp [List.isPrefixOf]
  | cons c cs ih => simp [List.isPrefixOf, ih]

/-- Prepending the same list on both sides preserves the prefix test. -/
theorem append_cancel_isPrefixOf (p a b : Text) :
    (p ++ a).isPrefixOf (p ++ b) = a.isPrefixOf b := by
  induction p with
  | nil => rfl
  | cons c cs ih => simpa [List.isPrefixOf] using ih

/-- A successful prefix test yields an append decomposition. -/
theorem eq_append_of_isPrefixOf (p t : Text) (h : p.isPrefixOf t = true) :
    ∃ r, t = p ++ r := by
  induction p generalizing t with
  | nil => exact ⟨t, rfl⟩
  | cons c cs ih =>
    cases t with
    | nil => simp [List.isPrefixOf] at h
    | cons d ds =>
      simp only [List.isPrefixOf, Bool.and_eq_true, beq_iff_eq] at h
      obtain ⟨rfl, h2⟩ := h
      obtain ⟨r, rfl⟩ := ih ds h2
      exact ⟨r, rfl⟩

/-- The boolean prefix test is transitive. -/
theorem isPrefixOf_trans {a b c : Text} (h1 : a.isPrefixOf b = true)
    (h2 : b.isPrefixOf c = true) : a.isPrefixOf c = true := by
  obtain ⟨r, rfl⟩ := eq_append_of_isPrefixOf _ _ h1
  obtain ⟨q, rfl⟩ := eq_append_of_isPrefixOf _ _ h2
  rw [List.append_assoc]
  exact isPrefixOf_append_self _ _

/-- A list is a suffix of anything followed by itself. -/
theorem isSuffixOf_append_self (p t : Text) :
    p.isSuffixOf (t ++ p) = true := by
  simp only [List.isSuffixOf, List.reverse_append]
  exact isPrefixOf_append_self _ _

/-- A prefix made of non-whitespace characters survives strip. -/
theorem isPrefixOf_strip (p t : Text) (hne : p ≠ [])
    (hws : ∀ c ∈ p, isWS c = false) (h : p.isPrefixOf t = true) :
    p.isPrefixOf (strip t) = true := by
  obtain ⟨r, rfl⟩ := eq_append_of_isPrefixOf _ _ h
  cases p with
  | nil => exact absurd rfl hne
  | cons c p' =>
    have hc : isWS c = false := hws c (by simp)
    unfold strip
    rw [show (c :: p') ++ r = c :: (p' ++ r) from rfl,
      lstrip_cons_not_ws _ _ hc,
      show c :: (p' ++ r) = (c :: p') ++ r from rfl, rstrip_append]
    by_cases h2 : rstrip r = []
    · rw [if_pos h2, rstrip_of_all_not_ws _ hws]
      have h3 := isPrefixOf_append_self (c :: p') []
      rw [List.append_nil] at h3
      exact h3
    · rw [if_neg h2]
      exact isPrefixOf_append_self _ _

/-- Shapes of a list whose append with a fence starts with a fence. -/
theorem fence_prefix_cases (t : Text)
    (h : fenceMarker.isPrefixOf (t ++ fenceMarker) = true) :
    t = [] ∨ t = ['`'] ∨ t = ['`', '`'] ∨ fenceMarker.isPrefixOf t = true := by
  rcases t with _ | ⟨a, _ | ⟨b, _ | ⟨c, r⟩⟩⟩
  · exact Or.inl rfl
  · simp only [fenceMarker, List.isPrefixOf, List.cons_append,
      List.nil_append, Bool.and_eq_true, beq_iff_eq] at h
    obtain ⟨rfl, -⟩ := h
    exact Or.inr (Or.inl rfl)
  · simp only [fenceMarker, List.isPrefixOf, List.cons_append,
      List.nil_append, Bool.and_eq_true, beq_iff_eq] at h
    obtain ⟨rfl, rfl, -⟩ := h
    exact Or.inr (Or.inr (Or.inl rfl))
  · simp only [fenceMarker, List.isPrefixOf, List.cons_append,
      Bool.and_eq_true, beq_iff_eq] at h
    obtain ⟨rfl, rfl, rfl, -⟩ := h
    refine Or.inr (Or.inr (Or.inr ?_))
    simp [fenceMarker, List.isPrefixOf]

/-- The json tag cannot start inside the closing fence. -/
theorem json_prefix_of_append_fence (t : Text)
    (h : jsonWord.isPrefixOf (t ++ fenceMarker) = true) :
    jsonWord.isPrefixOf t = true := by
  rcases t with _ | ⟨a, _ | ⟨b, _ | ⟨c, _ | ⟨d, r⟩⟩⟩⟩
  · simp [jsonWord, fenceMarker, List.isPrefixOf] at h
  · simp only [jsonWord, fenceMarker, List.isPrefixOf, List.cons_append,
      List.nil_append, Bool.and_eq_true, beq_iff_eq] at h
    exact absurd h.2.1 (by decide)
  · simp only [jsonWord, fenceMarker, List.isPrefixOf, List.cons_append,
      List.nil_append, Bool.and_eq_true, beq_iff_eq] at h
    exact absurd h.2.2.1 (by decide)
  · simp only [jsonWord, fenceMarker, List.isPrefixOf, List.cons_append,
      List.nil_append, Bool.and_eq_true, beq_iff_eq] at h
    exact absurd h.2.2.2.1 (by decide)
  · simp only [jsonWord, fenceMarker, List.isPrefixOf, List.cons_append,
      Bool.and_eq_true, beq_iff_eq] at h
    obtain ⟨rfl, rfl, rfl, rfl, -⟩ := h
    simp [jsonWord, List.isPrefixOf]

/-! Behaviour of extractJson on fenced and unfenced responses. -/

/-- Dropping three characters from the right undoes appending a
fence. -/
theorem pyDropRight_append_fence (t : Text) :
    pyDropRight 3 (t ++ fenceMarker) = t := by
  unfold pyDropRight
  rw [show (3 : Nat) = fenceMarker.length from rfl, List.length_append,
    Nat.add_sub_cancel, List.take_left]

/-- A response wrapped in a json-tagged fence has no surrounding
whitespace to strip. -/
theorem strip_fjwrap (t : Text) :
    strip (fenceJsonMarker ++ t ++ fenceMarker) =
      fenceJsonMarker ++ t ++ fenceMarker := by
  have h := strip_sandwich '`' '`' (['`', '`', 'j', 's', 'o', 'n'] ++ t ++ ['`', '`'])
    (by decide) (by decide)
  simpa [fenceJsonMarker, fenceMarker, List.append_assoc] using h

/-- A response wrapped in a plain fence has no surrounding whitespace
to strip. -/
theorem strip_fwrap (t : Text) :
    strip (fenceMarker ++ t ++ fenceMarker) =
      fenceMarker ++ t ++ fenceMarker := by
  have h := strip_sandwich '`' '`' (['`', '`'] ++ t ++ ['`', '`'])
    (by decide) (by decide)
  simpa [fenceMarker, List.append_assoc] using h

/-- extractJson reduces to strip on a response whose stripped form
carries no fence at either end and no json tag in front. -/
theorem extract_trimmed (t : Text)
    (h1 : fenceMarker.isPrefixOf (strip t) = false)
    (h3 : fenceMarker.isSuffixOf (strip t) = false) :
    extractJson t = strip t := by
  have hfj : fenceJsonMarker.isPrefixOf (strip t) = false := by
    by_contra hh
    rw [Bool.not_eq_false] at hh
    have h4 : fenceMarker.isPrefixOf (strip t) = true :=
      isPrefixOf_trans (by decide : fenceMarker.isPrefixOf fenceJsonMarker = true) hh
    rw [h1] at h4
    simp at h4
  simp only [extractJson, hfj, h1, h3, Bool.false_eq_true, if_false, strip_idem]

/-- extractJson undoes a json-tagged fence wrapping, provided the
stripped payload does not itself start with a fence. -/
theorem extract_fjwrap (t : Text)
    (h1 : fenceMarker.isPrefixOf (strip t) = false) :
    extractJson (fenceJsonMarker ++ t ++ fenceMarker) = strip t := by
  by_cases hp : fenceMarker.isPrefixOf (t ++ fenceMarker) = true
  · rcases fence_prefix_cases t hp with rfl | rfl | rfl | hfm
    · decide
    · decide
    · decide
    · exfalso
      have hh := isPrefixOf_strip fenceMarker t (by decide) (by decide) hfm
      rw [h1] at hh
      simp at hh
  · rw [Bool.not_eq_true] at hp
    have hw := strip_fjwrap t
    have hstart : fenceJsonMarker.isPrefixOf
        (fenceJsonMarker ++ t ++ fenceMarker) = true := by
      rw [List.append_assoc]
      exact isPrefixOf_append_self _ _
    have hdrop : List.drop 7 (fenceJsonMarker ++ t ++ fenceMarker) =
        t ++ fenceMarker := by
      rw [List.append_assoc]
      rfl
    have hsuf : fenceMarker.isSuffixOf (t ++ fenceMarker) = true :=
      isSuffixOf_append_self _ _
    simp only [extractJson, hw, hstart, if_true, hdrop, hp,
      Bool.false_eq_true, if_false, hsuf, pyDropRight_append_fence]

/-- extractJson undoes a plain fence wrapping, provided the stripped
payload does not start with the json tag. -/
theorem extract_fwrap (t : Text)
    (h2 : jsonWord.isPrefixOf (strip t) = false) :
    extractJson (fenceMarker ++ t ++ fenceMarker) = strip t := by
  by_cases hj : fenceJsonMarker.isPrefixOf (fenceMarker ++ t ++ fenceMarker) = true
  · exfalso
    rw [List.append_assoc,
      show fenceJsonMarker = fenceMarker ++ jsonWord from rfl,
      append_cancel_isPrefixOf] at hj
    have hjt := json_prefix_of_append_fence t hj
    have hh := isPrefixOf_strip jsonWord t (by decide) (by decide) hjt
    rw [h2] at hh
    simp at hh
  · rw [Bool.not_eq_true] at hj
    have hw := strip_fwrap t
    have hstart : fenceMarker.isPrefixOf
        (fenceMarker ++ t ++ fenceMarker) = true := by
      rw [List.append_assoc]
      exact isPrefixOf_append_self _ _
    have hdrop : List.drop 3 (fenceMarker ++ t ++ fenceMarker) =
        t ++ fenceMarker := by
      rw [List.append_assoc]
      rfl
    have hsuf : fenceMarker.isSuffixOf (t ++ fenceMarker) = true :=
      isSuffixOf_append_self _ _
    simp only [extractJson, hw, hj, Bool.false_eq_true, if_false, hstart,
      if_true, hdrop, hsuf, pyDropRight_append_fence]

/-! The workflow executor against the sequential composition. -/

/-- Running the compiled graph equals the unconditional sequential
composition of the four stage functions, and the trace visits each
stage exactly once in pipeline order. -/
theorem workflow_invoke_eq (rs : StageResponses) (s : GraphState) :
    workflow_invoke rs s = (sequentialPipeline rs s, stageOrder) := rfl

/-- extractJson determines the market research decoding. -/
theorem decodeMarketResearch_congr {a b : Text}
    (h : extractJson a = extractJson b) :
    decodeMarketResearch a = decodeMarketResearch b := by
  unfold decodeMarketResearch parseStageJson
  rw [h]

/-- extractJson determines the trend analysis decoding. -/
theorem decodeTrendAnalysis_congr {a b : Text}
    (h : extractJson a = extractJson b) :
    decodeTrendAnalysis a = decodeTrendAnalysis b := by
  unfold decodeTrendAnalysis parseStageJson
  rw [h]

/-- extractJson determines the marketing strategy decoding. -/
theorem decodeMarketingStrategy_congr {a b : Text}
    (h : extractJson a = extractJson b) :
    decodeMarketingStrategy a = decodeMarketingStrategy b := by
  unfold decodeMarketingStrategy parseStageJson
  rw [h]

/-- extractJson determines the campaign content decoding. -/
theorem decodeCampaignContent_congr {a b : Text}
    (h : extractJson a = extractJson b) :
    decodeCampaignContent a = decodeCampaignContent b := by
  unfold decodeCampaignContent parseStageJson
  rw [h]

/-! Claim theorems. -/

/-- Claim C3: running the orchestrator equals the unconditional
sequential composition of the four stage functions (market research,
then trend analysis, then strategy planning, then content creation):
for every queued set of responses and every state, the final state is
the nested application of the four stage functions in that order, and
the execution trace visits each stage exactly once in that order, with
no branch that skips a downstream stage when a prior stage has set the
error field (the equality holds for all states, including those with
the error field set). -/
theorem C3_workflow_is_sequential_composition
    (rs : StageResponses) (s : GraphState) :
    (workflow_invoke rs s).fst = sequentialPipeline rs s ∧
    (workflow_invoke rs s).snd = stageOrder := by
  constructor
  · rw [workflow_invoke_eq]
  · rw [workflow_invoke_eq]

/-- Claim C1: if the four queued model responses all decode into their
stage records, one orchestrator run from the initial state of a valid
input populates all four result fields with exactly those records,
ends with current step content_creation_completed, and leaves the
error field unset. -/
theorem C1_end_to_end_success
    (d i p : Text) (tm : Option Text) (rs : StageResponses)
    (_hv : (validate_input d i p).fst = true)
    (h1 : (decodeMarketResearch rs.market_research_response).isSome = true)
    (h2 : (decodeTrendAnalysis rs.trend_analysis_response).isSome = true)
    (h3 : (decodeMarketingStrategy rs.strategy_planning_response).isSome = true)
    (h4 : (decodeCampaignContent rs.content_creation_response).isSome = true) :
    (workflow_invoke rs (initialState d i p tm)).fst =
      { company_domain := d
        industry := i
        project_description := p
        target_market := tm
        market_research := decodeMarketResearch rs.market_research_response
        trend_analysis := decodeTrendAnalysis rs.trend_analysis_response
        marketing_strategy := decodeMarketingStrategy rs.strategy_planning_response
        campaign_content := decodeCampaignContent rs.content_creation_response
        current_step := strToText "content_creation_completed"
        error := none } := by
  obtain ⟨a, ha⟩ := Option.isSome_iff_exists.mp h1
  obtain ⟨b, hb⟩ := Option.isSome_iff_exists.mp h2
  obtain ⟨c, hc⟩ := Option.isSome_iff_exists.mp h3
  obtain ⟨e, he⟩ := Option.isSome_iff_exists.mp h4
  have hq := workflow_invoke_eq rs (initialState d i p tm)
  rw [hq]
  simp only [sequentialPipeline, MarketResearcherAgent.analyze,
    TrendAnalyzerAgent.analyze, StrategyPlannerAgent.plan,
    ContentCreatorAgent.create, initialState, ha, hb, hc, he]

/-- Witness for claim C1 at a concrete valid input and four concrete
well-formed responses. -/
theorem C1_end_to_end_success_witness :
    (workflow_invoke
        ⟨goodMarketResearchJson, goodTrendAnalysisJson, goodStrategyJson,
         goodContentJson⟩
        (initialState (strToText "acme.com") (strToText "tech")
          longDescription none)).fst =
      { company_domain := strToText "acme.com"
        industry := strToText "tech"
        project_description := longDescription
        target_market := none
        market_research := decodeMarketResearch goodMarketResearchJson
        trend_analysis := decodeTrendAnalysis goodTrendAnalysisJson
        marketing_strategy := decodeMarketingStrategy goodStrategyJson
        campaign_content := decodeCampaignContent goodContentJson
        current_step := strToText "content_creation_completed"
        error := none } :=
  C1_end_to_end_success (strToText "acme.com") (strToText "tech")
    longDescription none
    ⟨goodMarketResearchJson, goodTrendAnalysisJson, goodStrategyJson,
     goodContentJson⟩
    (by decide) (by decide) (by decide) (by decide) (by decide)

/-- Claim C10: there is a run in which the first stage fails and every
later stage succeeds, whose final state still carries the stale error
message while current_step reads content_creation_completed: the later
successful stages overwrite the failed step label without clearing the
error, so both coexist in the state the presentation layer inspects. -/
theorem C10_error_and_completed_step_coexist :
    ((workflow_invoke
        ⟨badResponse, goodTrendAnalysisJson, goodStrategyJson, goodContentJson⟩
        (initialState (strToText "acme.com") (strToText "tech")
          longDescription none)).fst.error =
      some (strToText "Market research failed: invalid model response")) ∧
    ((workflow_invoke
        ⟨badResponse, goodTrendAnalysisJson, goodStrategyJson, goodContentJson⟩
        (initialState (strToText "acme.com") (strToText "tech")
          longDescription none)).fst.current_step =
      strToText "content_creation_completed") ∧
    ((workflow_invoke
        ⟨badResponse, goodTrendAnalysisJson, goodStrategyJson, goodContentJson⟩
        (initialState (strToText "acme.com") (strToText "tech")
          longDescription none)).fst.market_research = none) ∧
    ((workflow_invoke
        ⟨badResponse, goodTrendAnalysisJson, goodStrategyJson, goodContentJson⟩
        (initialState (strToText "acme.com") (strToText "tech")
          longDescription none)).fst.trend_analysis.isSome = true) ∧
    ((workflow_invoke
        ⟨badResponse, goodTrendAnalysisJson, goodStrategyJson, goodContentJson⟩
        (initialState (strToText "acme.com") (strToText "tech")
          longDescription none)).fst.marketing_strategy.isSome = true) ∧
    ((workflow_invoke
        ⟨badResponse, goodTrendAnalysisJson, goodStrategyJson, goodContentJson⟩
        (initialState (strToText "acme.com") (strToText "tech")
          longDescription none)).fst.campaign_content.isSome = true) := by
  decide

/-- Claim C2, counterexample: on a state whose market research field is
already populated, a malformed response makes the stage take its error
path (step marked failed) yet the result field stays populated, not
unset as the claim demands for every state. -/
theorem C2_counterexample_result_field_preserved :
    decodeMarketResearch badResponse = none ∧
    (MarketResearcherAgent.analyze badResponse presetState).market_research =
      some presetMarketResearch ∧
    (MarketResearcherAgent.analyze badResponse presetState).current_step =
      strToText "market_research_failed" := by
  decide

/-- Claim C2, amended: for every stage and every state, if the model
response for that stage is not valid JSON or is JSON missing a
required key, the stage returns a state whose error field carries a
non-empty message, whose current_step ends in _failed, and whose
result field for that stage is left unchanged — in particular it
remains unset whenever it was unset in the input state, as in every
actual pipeline run reaching that stage. -/
theorem C2_malformed_response_error_state (r : Text) (s : GraphState) :
    (decodeMarketResearch r = none →
      failedStageState (MarketResearcherAgent.analyze r s) ∧
      (MarketResearcherAgent.analyze r s).market_research = s.market_research) ∧
    (decodeTrendAnalysis r = none →
      failedStageState (TrendAnalyzerAgent.analyze r s) ∧
      (TrendAnalyzerAgent.analyze r s).trend_analysis = s.trend_analysis) ∧
    (decodeMarketingStrategy r = none →
      failedStageState (StrategyPlannerAgent.plan r s) ∧
      (StrategyPlannerAgent.plan r s).marketing_strategy = s.marketing_strategy) ∧
    (decodeCampaignContent r = none →
      failedStageState (ContentCreatorAgent.create r s) ∧
      (ContentCreatorAgent.create r s).campaign_content = s.campaign_content) := by
  refine ⟨fun h => ?_, fun h => ?_, fun h => ?_, fun h => ?_⟩
  · have e : MarketResearcherAgent.analyze r s = { s with
        error := some (strToText "Market research failed: invalid model response")
        current_step := strToText "market_research_failed" } := by
      simp [MarketResearcherAgent.analyze, h]
    rw [e]
    refine ⟨⟨⟨_, rfl, by decide⟩, ?_⟩, rfl⟩
    show (strToText "_failed").isSuffixOf (strToText "market_research_failed") = true
    decide
  · have e : TrendAnalyzerAgent.analyze r s = { s with
        error := some (strToText "Trend analysis failed: invalid model response")
        current_step := strToText "trend_analysis_failed" } := by
      simp [TrendAnalyzerAgent.analyze, h]
    rw [e]
    refine ⟨⟨⟨_, rfl, by decide⟩, ?_⟩, rfl⟩
    show (strToText "_failed").isSuffixOf (strToText "trend_analysis_failed") = true
    decide
  · have e : StrategyPlannerAgent.plan r s = { s with
        error := some (strToText "Strategy planning failed: invalid model response")
        current_step := strToText "strategy_planning_failed" } := by
      simp [StrategyPlannerAgent.plan, h]
    rw [e]
    refine ⟨⟨⟨_, rfl, by decide⟩, ?_⟩, rfl⟩
    show (strToText "_failed").isSuffixOf (strToText "strategy_planning_failed") = true
    decide
  · have e : ContentCreatorAgent.create r s = { s with
        error := some (strToText "Content creation failed: invalid model response")
        current_step := strToText "content_creation_failed" } := by
      simp [ContentCreatorAgent.create, h]
    rw [e]
    refine ⟨⟨⟨_, rfl, by decide⟩, ?_⟩, rfl⟩
    show (strToText "_failed").isSuffixOf (strToText "content_creation_failed") = true
    decide

/-- Witness for amended claim C2: the four stages on a concrete
malformed response and the concrete initial state. -/
theorem C2_malformed_response_error_state_witness :
    (failedStageState (MarketResearcherAgent.analyze badResponse
        (initialState (strToText "a") (strToText "b") (strToText "c") none)) ∧
      (MarketResearcherAgent.analyze badResponse
        (initialState (strToText "a") (strToText "b") (strToText "c") none)).market_research =
        (initialState (strToText "a") (strToText "b") (strToText "c") none).market_research) ∧
    (failedStageState (TrendAnalyzerAgent.analyze badResponse
        (initialState (strToText "a") (strToText "b") (strToText "c") none)) ∧
      (TrendAnalyzerAgent.analyze badResponse
        (initialState (strToText "a") (strToText "b") (strToText "c") none)).trend_analysis =
        (initialState (strToText "a") (strToText "b") (strToText "c") none).trend_analysis) ∧
    (failedStageState (StrategyPlannerAgent.plan badResponse
        (initialState (strToText "a") (strToText "b") (strToText "c") none)) ∧
      (StrategyPlannerAgent.plan badResponse
        (initialState (strToText "a") (strToText "b") (strToText "c") none)).marketing_strategy =
        (initialState (strToText "a") (strToText "b") (strToText "c") none).marketing_strategy) ∧
    (failedStageState (ContentCreatorAgent.create badResponse
        (initialState (strToText "a") (strToText "b") (strToText "c") none)) ∧
      (ContentCreatorAgent.create badResponse
        (initialState (strToText "a") (strToText "b") (strToText "c") none)).campaign_content =
        (initialState (strToText "a") (strToText "b") (strToText "c") none).campaign_content) := by
  have h := C2_malformed_response_error_state badResponse
    (initialState (strToText "a") (strToText "b") (strToText "c") none)
  exact ⟨h.1 (by decide), h.2.1 (by decide), h.2.2.1 (by decide),
    h.2.2.2 (by decide)⟩

/-- Claim C4, counterexample: a model response that is itself already
fenced parses successfully, but wrapping that same response text in a
further json-tagged fence makes the stage parse fail, so wrapping does
not always preserve the stage result. -/
theorem C4_counterexample_double_fence :
    (decodeTrendAnalysis fencedTrendResponse).isSome = true ∧
    decodeTrendAnalysis doubleFencedTrendResponse = none := by
  decide

/-- Claim C4, amended: for every stage and every model-response text t
whose stripped form does not itself begin with a code fence, does not
begin with the characters json, and does not end with a code fence,
parsing the response built by wrapping t in a json-tagged fence (and
likewise in a plain fence) produces exactly the same stage result as
parsing t itself, after surrounding whitespace is stripped. -/
theorem C4_fence_wrapping_parse_equivalence (t : Text)
    (h1 : fenceMarker.isPrefixOf (strip t) = false)
    (h2 : jsonWord.isPrefixOf (strip t) = false)
    (h3 : fenceMarker.isSuffixOf (strip t) = false) :
    extractJson (fenceJsonMarker ++ t ++ fenceMarker) = extractJson t ∧
    extractJson (fenceMarker ++ t ++ fenceMarker) = extractJson t ∧
    decodeMarketResearch (fenceJsonMarker ++ t ++ fenceMarker) =
      decodeMarketResearch t ∧
    decodeTrendAnalysis (fenceJsonMarker ++ t ++ fenceMarker) =
      decodeTrendAnalysis t ∧
    decodeMarketingStrategy (fenceJsonMarker ++ t ++ fenceMarker) =
      decodeMarketingStrategy t ∧
    decodeCampaignContent (fenceJsonMarker ++ t ++ fenceMarker) =
      decodeCampaignContent t ∧
    decodeMarketResearch (fenceMarker ++ t ++ fenceMarker) =
      decodeMarketResearch t ∧
    decodeTrendAnalysis (fenceMarker ++ t ++ fenceMarker) =
      decodeTrendAnalysis t ∧
    decodeMarketingStrategy (fenceMarker ++ t ++ fenceMarker) =
      decodeMarketingStrategy t ∧
    decodeCampaignContent (fenceMarker ++ t ++ fenceMarker) =
      decodeCampaignContent t := by
  have e0 := extract_trimmed t h1 h3
  have e1 : extractJson (fenceJsonMarker ++ t ++ fenceMarker) = extractJson t := by
    rw [extract_fjwrap t h1, e0]
  have e2 : extractJson (fenceMarker ++ t ++ fenceMarker) = extractJson t := by
    rw [extract_fwrap t h2, e0]
  exact ⟨e1, e2, decodeMarketResearch_congr e1, decodeTrendAnalysis_congr e1,
    decodeMarketingStrategy_congr e1, decodeCampaignContent_congr e1,
    decodeMarketResearch_congr e2, decodeTrendAnalysis_congr e2,
    decodeMarketingStrategy_congr e2, decodeCampaignContent_congr e2⟩

/-- Witness for amended claim C4 at a concrete payload with no fence
of its own. -/
theorem C4_fence_wrapping_parse_equivalence_witness :
    extractJson (fenceJsonMarker ++ goodStrategyJson ++ fenceMarker) =
      extractJson goodStrategyJson ∧
    extractJson (fenceMarker ++ goodStrategyJson ++ fenceMarker) =
      extractJson goodStrategyJson ∧
    decodeMarketingStrategy (fenceJsonMarker ++ goodStrategyJson ++ fenceMarker) =
      decodeMarketingStrategy goodStrategyJson := by
  have h := C4_fence_wrapping_parse_equivalence goodStrategyJson
    (by decide) (by decide) (by decide)
  exact ⟨h.1, h.2.1, h.2.2.2.2.1⟩

/-- Claim C5: for each of the four stages, invoking the stage function
on a state in which the stage's expected upstream result record is
absent raises no exception (each stage function is total and always
lands in its completed or failed outcome), and the prompt context is
built with the documented placeholder text in place of the missing
record ("No market research available", "No trend analysis
available", "No marketing strategy available", "No audience
information available"; for the market researcher, missing scraped
company content degrades to "No content available"). -/
theorem C5_missing_upstream_placeholder (s : GraphState) (r : Text)
    (trend_results : List SearchResult)
    (hmr : s.market_research = none)
    (hta : s.trend_analysis = none)
    (hms : s.marketing_strategy = none) :
    TrendAnalyzerAgent.format_market_research s.market_research =
      strToText "No market research available" ∧
    (TrendAnalyzerAgent.promptContext s trend_results).lookup
        (strToText "market_research") =
      some (strToText "No market research available") ∧
    StrategyPlannerAgent.format_market_research s.market_research =
      strToText "No market research available" ∧
    StrategyPlannerAgent.format_trend_analysis s.trend_analysis =
      strToText "No trend analysis available" ∧
    (StrategyPlannerAgent.promptContext s).lookup (strToText "market_research") =
      some (strToText "No market research available") ∧
    (StrategyPlannerAgent.promptContext s).lookup (strToText "trend_analysis") =
      some (strToText "No trend analysis available") ∧
    ContentCreatorAgent.format_strategy s.marketing_strategy =
      strToText "No marketing strategy available" ∧
    ContentCreatorAgent.format_audience s.market_research =
      strToText "No audience information available" ∧
    (ContentCreatorAgent.promptContext s).lookup (strToText "marketing_strategy") =
      some (strToText "No marketing strategy available") ∧
    (ContentCreatorAgent.promptContext s).lookup (strToText "target_audience") =
      some (strToText "No audience information available") ∧
    orPlaceholder none "No content available" = strToText "No content available" ∧
    ((TrendAnalyzerAgent.analyze r s).current_step =
        strToText "trend_analysis_completed" ∨
      (TrendAnalyzerAgent.analyze r s).current_step =
        strToText "trend_analysis_failed") ∧
    ((StrategyPlannerAgent.plan r s).current_step =
        strToText "strategy_planning_completed" ∨
      (StrategyPlannerAgent.plan r s).current_step =
        strToText "strategy_planning_failed") ∧
    ((ContentCreatorAgent.create r s).current_step =
        strToText "content_creation_completed" ∨
      (ContentCreatorAgent.create r s).current_step =
        strToText "content_creation_failed") ∧
    ((MarketResearcherAgent.analyze r s).current_step =
        strToText "market_research_completed" ∨
      (MarketResearcherAgent.analyze r s).current_step =
        strToText "market_research_failed") := by
  refine ⟨?_, ?_, ?_, ?_, ?_, ?_, ?_, ?_, ?_, ?_, ?_, ?_, ?_, ?_, ?_⟩
  · rw [hmr]
    rfl
  · simp only [TrendAnalyzerAgent.promptContext, hmr, List.lookup]
    rfl
  · rw [hmr]
    rfl
  · rw [hta]
    rfl
  · simp only [StrategyPlannerAgent.promptContext, hmr, List.lookup]
    rfl
  · simp only [StrategyPlannerAgent.promptContext, hta, List.lookup]
    rfl
  · rw [hms]
    rfl
  · rw [hmr]
    rfl
  · simp only [ContentCreatorAgent.promptContext, hms, List.lookup]
    rfl
  · simp only [ContentCreatorAgent.promptContext, hmr, List.lookup]
    rfl
  · rfl
  · cases h : decodeTrendAnalysis r
    · exact Or.inr (by simp [TrendAnalyzerAgent.analyze, h])
    · exact Or.inl (by simp [TrendAnalyzerAgent.analyze, h])
  · cases h : decodeMarketingStrategy r
    · exact Or.inr (by simp [StrategyPlannerAgent.plan, h])
    · exact Or.inl (by simp [StrategyPlannerAgent.plan, h])
  · cases h : decodeCampaignContent r
    · exact Or.inr (by simp [ContentCreatorAgent.create, h])
    · exact Or.inl (by simp [ContentCreatorAgent.create, h])
  · cases h : decodeMarketResearch r
    · exact Or.inr (by simp [MarketResearcherAgent.analyze, h])
    · exact Or.inl (by simp [MarketResearcherAgent.analyze, h])


/-- Witness for claim C5 at the concrete initial state, whose three
upstream record fields are all absent. -/
theorem C5_missing_upstream_placeholder_witness :
    TrendAnalyzerAgent.format_market_research
        (initialState (strToText "a") (strToText "b") (strToText "c") none).market_research =
      strToText "No market research available" ∧
    (StrategyPlannerAgent.promptContext
        (initialState (strToText "a") (strToText "b") (strToText "c") none)).lookup
        (strToText "trend_analysis") =
      some (strToText "No trend analysis available") ∧
    (ContentCreatorAgent.promptContext
        (initialState (strToText "a") (strToText "b") (strToText "c") none)).lookup
        (strToText "marketing_strategy") =
      some (strToText "No marketing strategy available") ∧
    ContentCreatorAgent.format_audience
        (initialState (strToText "a") (strToText "b") (strToText "c") none).market_research =
      strToText "No audience information available" := by
  have h := C5_missing_upstream_placeholder
    (initialState (strToText "a") (strToText "b") (strToText "c") none)
    badResponse [] rfl rfl rfl
  exact ⟨h.1, h.2.2.2.2.2.1, h.2.2.2.2.2.2.2.2.1, h.2.2.2.2.2.2.2.1⟩

/-- Claim C6: for every stage and every input state, the returned
state differs from the input only in that stage's own result field,
current_step and error — expressed as the equation that the output is
the input updated at just those three fields, so the four input fields
and every other stage's result field are unchanged — and on a parse
failure the stage's own result field is also left exactly as it was
in the input (no partial record is ever attached). -/
theorem C6_stage_frame_conditions (r : Text) (s : GraphState) :
    (MarketResearcherAgent.analyze r s = { s with
        market_research := (MarketResearcherAgent.analyze r s).market_research
        current_step := (MarketResearcherAgent.analyze r s).current_step
        error := (MarketResearcherAgent.analyze r s).error }) ∧
    (decodeMarketResearch r = none →
      (MarketResearcherAgent.analyze r s).market_research = s.market_research) ∧
    (TrendAnalyzerAgent.analyze r s = { s with
        trend_analysis := (TrendAnalyzerAgent.analyze r s).trend_analysis
        current_step := (TrendAnalyzerAgent.analyze r s).current_step
        error := (TrendAnalyzerAgent.analyze r s).error }) ∧
    (decodeTrendAnalysis r = none →
      (TrendAnalyzerAgent.analyze r s).trend_analysis = s.trend_analysis) ∧
    (StrategyPlannerAgent.plan r s = { s with
        marketing_strategy := (StrategyPlannerAgent.plan r s).marketing_strategy
        current_step := (StrategyPlannerAgent.plan r s).current_step
        error := (StrategyPlannerAgent.plan r s).error }) ∧
    (decodeMarketingStrategy r = none →
      (StrategyPlannerAgent.plan r s).marketing_strategy = s.marketing_strategy) ∧
    (ContentCreatorAgent.create r s = { s with
        campaign_content := (ContentCreatorAgent.create r s).campaign_content
        current_step := (ContentCreatorAgent.create r s).current_step
        error := (ContentCreatorAgent.create r s).error }) ∧
    (decodeCampaignContent r = none →
      (ContentCreatorAgent.create r s).campaign_content = s.campaign_content) := by
  refine ⟨?_, ?_, ?_, ?_, ?_, ?_, ?_, ?_⟩
  · cases h : decodeMarketResearch r <;> simp [MarketResearcherAgent.analyze, h]
  · intro h
    simp [MarketResearcherAgent.analyze, h]
  · cases h : decodeTrendAnalysis r <;> simp [TrendAnalyzerAgent.analyze, h]
  · intro h
    simp [TrendAnalyzerAgent.analyze, h]
  · cases h : decodeMarketingStrategy r <;> simp [StrategyPlannerAgent.plan, h]
  · intro h
    simp [StrategyPlannerAgent.plan, h]
  · cases h : decodeCampaignContent r <;> simp [ContentCreatorAgent.create, h]
  · intro h
    simp [ContentCreatorAgent.create, h]


/-- Witness for claim C6: the frame equation and the failure-path
preservation at a concrete malformed response and state. -/
theorem C6_stage_frame_conditions_witness :
    (MarketResearcherAgent.analyze badResponse
        (initialState (strToText "a") (strToText "b") (strToText "c") none)).market_research =
      (initialState (strToText "a") (strToText "b") (strToText "c") none).market_research ∧
    (TrendAnalyzerAgent.analyze badResponse
        (initialState (strToText "a") (strToText "b") (strToText "c") none)).trend_analysis =
      (initialState (strToText "a") (strToText "b") (strToText "c") none).trend_analysis ∧
    (StrategyPlannerAgent.plan badResponse
        (initialState (strToText "a") (strToText "b") (strToText "c") none)).marketing_strategy =
      (initialState (strToText "a") (strToText "b") (strToText "c") none).marketing_strategy ∧
    (ContentCreatorAgent.create badResponse
        (initialState (strToText "a") (strToText "b") (strToText "c") none)).campaign_content =
      (initialState (strToText "a") (strToText "b") (strToText "c") none).campaign_content := by
  have h := C6_stage_frame_conditions badResponse
    (initialState (strToText "a") (strToText "b") (strToText "c") none)
  exact ⟨h.2.1 (by decide), h.2.2.2.1 (by decide), h.2.2.2.2.2.1 (by decide),
    h.2.2.2.2.2.2.2 (by decide)⟩

/-- Python list repetition of a one-element list is replication. -/
theorem pyListMul_singleton (a : SearchResult) (m : Nat) :
    pyListMul [a] m = List.replicate m a := by
  induction m with
  | zero => rfl
  | succ k ih =>
    simp [pyListMul, List.replicate_succ, List.flatten_cons] at *

/-- Claim C7: when no search credential is configured the search
adapter, for every query string, returns the canned placeholder
record replicated `min num_results 3` times — a list of length at
most 3, and non-empty (length exactly 3) under the default
`num_results = 5` — and, being a total function, never raises. -/
theorem C7_simulated_search_results (q : Text) (n : Nat) (net : Option (List SearchResult)) :
    WebSearchTool.search none net q n =
      List.replicate (min n 3) (simulatedResult q) ∧
    (WebSearchTool.search none net q 5).length = 3 ∧
    0 < (WebSearchTool.search none net q 5).length := by
  refine ⟨?_, ?_, ?_⟩
  · simp [WebSearchTool.search, WebSearchTool.simulated_search,
      pyListMul_singleton]
  · simp [WebSearchTool.search, WebSearchTool.simulated_search,
      pyListMul_singleton]
  · simp [WebSearchTool.search, WebSearchTool.simulated_search,
      pyListMul_singleton]

/-- Claim C8: the scrape operation returns absence (None) whenever
the fetch fails (the failure oracle is `none`, covering every reason
the `try/except` catches) rather than raising, and when it succeeds
the returned text has length at most the configured maximum length
plus the length of the truncation suffix "...". -/
theorem C8_scrape_absence_and_length_bound (fetched : Option Text) (max_length : Nat) :
    (fetched = none → WebScraperTool.scrape fetched max_length = none) ∧
    (∀ t, WebScraperTool.scrape fetched max_length = some t →
      t.length ≤ max_length + 3) := by
  constructor
  · intro h
    rw [h]
    rfl
  · intro t ht
    cases fetched with
    | none => simp [WebScraperTool.scrape] at ht
    | some raw =>
      simp only [WebScraperTool.scrape, Option.some.injEq] at ht
      by_cases hc : max_length < (cleanScrapedText raw).length
      · rw [if_pos hc] at ht
        subst ht
        simp only [List.length_append, List.length_take]
        have : (strToText "...").length = 3 := by decide
        rw [this]
        omega
      · rw [if_neg hc] at ht
        subst ht
        omega


/-- Witness for claim C8: the failure case and the length bound at a
concrete fetched page with the default maximum length 5000. -/
theorem C8_scrape_absence_and_length_bound_witness :
    WebScraperTool.scrape none 5000 = none ∧
    (strToText "hello").length ≤ 5000 + 3 := by
  have h1 := (C8_scrape_absence_and_length_bound none 5000).1 rfl
  have h2 := (C8_scrape_absence_and_length_bound (some (strToText "hello")) 5000).2
    (strToText "hello") (by decide)
  exact ⟨h1, h2⟩

/-- The Python falsiness test `not s or not s.strip()` reduces to a
test on the stripped text, since stripping the empty text is empty. -/
theorem or_isEmpty_strip (l : Text) :
    (l.isEmpty || (strip l).isEmpty) = (strip l).isEmpty := by
  cases l with
  | nil => rfl
  | cons c cs => simp [List.isEmpty]

/-- Claim C9: validate_input returns false exactly when the company
domain is empty or whitespace-only, or the industry is, or the
project description is, or the project description has fewer than 50
characters; whenever it returns false the accompanying message is
non-empty and the main flow invokes no stage (the workflow is never
entered), and in every other case it returns true with the empty
message. -/
theorem C9_validate_input_gate (d i p : Text) (tm : Option Text) (rs : StageResponses) :
    ((validate_input d i p).fst = false ↔
      (strip d = [] ∨ strip i = [] ∨ strip p = [] ∨ p.length < 50)) ∧
    ((validate_input d i p).fst = false →
      0 < (validate_input d i p).snd.length ∧
      mainRun d i p tm rs = none) ∧
    ((validate_input d i p).fst = true → (validate_input d i p).snd = []) := by
  have hd := or_isEmpty_strip d
  have hi := or_isEmpty_strip i
  have hp := or_isEmpty_strip p
  unfold mainRun validate_input
  rw [hd, hi, hp]
  split_ifs with g1 g2 g3 g4 <;>
    simp_all [List.isEmpty_iff] <;> decide


/-- Witness for claim C9: an empty company domain is rejected with a
non-empty message and the workflow is not invoked. -/
theorem C9_validate_input_gate_witness :
    0 < (validate_input [] (strToText "tech") longDescription).snd.length ∧
    mainRun [] (strToText "tech") longDescription none
      ⟨badResponse, badResponse, badResponse, badResponse⟩ = none :=
  (C9_validate_input_gate [] (strToText "tech") longDescription none
    ⟨badResponse, badResponse, badResponse, badResponse⟩).2.1 (by decide)
